import Mathlib

/-!
# Upload orchestration state machine: embedding and verification

Shallow embedding of the client-side upload orchestrator of the
`project2frontend` repository (`src/components/FileUpload.tsx`, types in
`src/types/index.ts`).  The component keeps four pieces of state
(`file`, `uploading`, `result`, `error`) and exposes the operations
`handleFileSelect`, `handleUpload`, `handleDownload`, `handleReset`,
plus the health probe `testBackendConnection`.  Network interactions are
modelled as explicit environment values (the outcome each `fetch`/`json`
call would have produced), and each operation additionally reports the
list of network calls it issued and the sequence of writes it performed
on the busy indicator.
-/

namespace Project2Frontend

/-- A scalar JSON value as it appears in a preview row
(`Record<string, any>[]` in the source; previews hold strings, numbers
or nulls). -/
inductive JsonVal where
  | str (s : String)
  | num (n : Int)
  | null
deriving DecidableEq, Repr

/-- The `stats` object of `ProcessingResult` (src/types/index.ts):
`{ total_records: number; filename: string; columns: string[];
preview: Record<string, any>[] }`. A preview row is a mapping from
column name to scalar value. -/
structure Stats where
  total_records : Nat
  filename : String
  columns : List String
  preview : List (List (String × JsonVal))
deriving DecidableEq, Repr

/-- A parsed JSON response body as the orchestrator reads it.  The
TypeScript code casts the parsed body with `data as ProcessingResult`
without validation, and separately reads `data.error` / `data.message`
on the failure path, so every field is optional here (`none` models an
absent field). -/
structure ResponseBody where
  success : Option Bool
  message : Option String
  stats : Option Stats
  download_url : Option String
  error : Option String
deriving DecidableEq, Repr

/-- The user-chosen file: the orchestration logic reads only its name
(for the `.xlsx` check) and size (display). -/
structure FileData where
  name : String
  size : Nat
deriving DecidableEq, Repr

/-- The component state: `file`, `uploading`, `result`, `error`
(`useState` hooks in FileUpload.tsx; `dragActive` is presentation only
and omitted). -/
structure UploadState where
  file : Option FileData
  uploading : Bool
  result : Option ResponseBody
  error : Option String
deriving DecidableEq, Repr

/-- The initial component state: all `useState` initializers
(`null`, `false`, `null`, `null`). -/
def initState : UploadState :=
  { file := none, uploading := false, result := none, error := none }

/-- `API_BASE_URL` constant from FileUpload.tsx. -/
def API_BASE_URL : String :=
  "https://project2backenddeploy-production.up.railway.app"

/-- JavaScript truthiness of an optional string value: `undefined`,
`null` and the empty string are falsy. -/
def jsTruthy (o : Option String) : Bool :=
  !(o.getD "" == "")

/-- JavaScript `s.endsWith(suffix)` (used by `handleFileSelect` as
`selectedFile.name.endsWith('.xlsx')`): the characters of `suffix` are
a suffix of the characters of `s`. -/
def jsEndsWith (s suffix : String) : Bool :=
  suffix.data.isSuffixOf s.data

/-- Outcome of the `fetch` + `json()` pair inside
`testBackendConnection`: either a parsed body whose `status` field is
the given value (`none` when the field is absent), or a thrown
network/parse failure. -/
inductive HealthOutcome where
  | response (status : Option String)
  | failure
deriving DecidableEq, Repr

/-- `testBackendConnection` (FileUpload.tsx): returns
`data.status === 'healthy'`, and `false` when the fetch or the JSON
parse throws. -/
def testBackendConnection (h : HealthOutcome) : Bool :=
  match h with
  | HealthOutcome.response status => status == some "healthy"
  | HealthOutcome.failure => false

/-- Outcome of the upload `fetch` from the orchestrator's point of
view:
* `netError m`: `fetch` itself rejected; `m = some msg` when the thrown
  value was an `Error` with message `msg`, `none` for a non-`Error`;
* `badJson status pm`: a response arrived (with the given HTTP status)
  but `response.json()` threw a parse error (an `Error`) with message
  `pm` — e.g. an empty body;
* `response ok status body`: the body parsed; `ok` is `response.ok`. -/
inductive FetchOutcome where
  | netError (m : Option String)
  | badJson (status : Nat) (pm : String)
  | response (ok : Bool) (status : Nat) (body : ResponseBody)
deriving DecidableEq, Repr

/-- Environment for one `handleUpload` run: what the health probe and
the upload fetch would return. -/
structure UploadEnv where
  health : HealthOutcome
  fetch : FetchOutcome
deriving DecidableEq, Repr

/-- A network call issued by an operation. -/
inductive NetEvent where
  | healthCheck
  | uploadPost
  | downloadGet (url : String)
deriving DecidableEq, Repr

/-- Fixed message of `handleFileSelect`'s rejection branch. -/
def validationMsg : String := "Please select a valid .xlsx file"

/-- Fixed message of `handleUpload`'s missing-file branch. -/
def noFileMsg : String := "Please select a file first"

/-- Connectivity message of `handleUpload`'s failed-probe branch. -/
def connectivityMsg : String :=
  "Cannot connect to backend server. Make sure Flask is running on " ++ API_BASE_URL

/-- Generic catch-all message for a non-`Error` throw in
`handleUpload`. -/
def genericUploadMsg : String := "An error occurred while uploading the file"

/-- Status-derived fallback of the upload error chain:
``Upload failed with status ${response.status}``. -/
def statusFallbackMsg (status : Nat) : String :=
  "Upload failed with status " ++ toString status

/-- Fixed message of `handleDownload`'s catch branch. -/
def downloadFailMsg : String := "Failed to download file"

/-- `handleFileSelect` (FileUpload.tsx): accept when the name ends in
`.xlsx` (store the file, clear error and result); otherwise only set
the validation error. -/
def handleFileSelect (s : UploadState) (f : FileData) : UploadState :=
  if jsEndsWith f.name ".xlsx" then
    { s with file := some f, error := none, result := none }
  else
    { s with error := some validationMsg }

/-- `handleUpload` (FileUpload.tsx), instrumented: returns the final
state, the network calls issued (in order), and the sequence of values
written to the `uploading` flag (in order).  Faithful to the source:
* no file: set the missing-file error and return (no network call);
* probe unhealthy: set the connectivity error and return;
* otherwise `setUploading(true); setError(null)`, then the fetch:
  a thrown fetch or parse error lands in `catch` (message of the thrown
  `Error`, or the generic message); a non-ok parsed response throws
  `data.error || data.message || statusFallback` which `catch` stores;
  an ok response is stored as the result after prefixing a truthy
  `download_url` with `API_BASE_URL`; `finally` writes
  `setUploading(false)` on every one of these paths. -/
def handleUploadFull (s : UploadState) (env : UploadEnv) :
    UploadState × List NetEvent × List Bool :=
  match s.file with
  | none => ({ s with error := some noFileMsg }, [], [])
  | some _ =>
    if testBackendConnection env.health then
      let s1 : UploadState := { s with uploading := true, error := none }
      match env.fetch with
      | FetchOutcome.netError m =>
          ({ s1 with uploading := false, error := some (m.getD genericUploadMsg) },
           [NetEvent.healthCheck, NetEvent.uploadPost], [true, false])
      | FetchOutcome.badJson _ pm =>
          ({ s1 with uploading := false, error := some pm },
           [NetEvent.healthCheck, NetEvent.uploadPost], [true, false])
      | FetchOutcome.response ok status body =>
          if ok then
            let stored : ResponseBody :=
              if jsTruthy body.download_url then
                { body with download_url := some (API_BASE_URL ++ body.download_url.getD "") }
              else body
            ({ s1 with uploading := false, result := some stored },
             [NetEvent.healthCheck, NetEvent.uploadPost], [true, false])
          else
            let msg :=
              if jsTruthy body.error then body.error.getD ""
              else if jsTruthy body.message then body.message.getD ""
              else statusFallbackMsg status
            ({ s1 with uploading := false, error := some msg },
             [NetEvent.healthCheck, NetEvent.uploadPost], [true, false])
    else
      ({ s with error := some connectivityMsg }, [NetEvent.healthCheck], [])

/-- `handleUpload`: the state transformation alone. -/
def handleUpload (s : UploadState) (env : UploadEnv) : UploadState :=
  (handleUploadFull s env).1

/-- Network calls issued by one `handleUpload` run. -/
def uploadEvents (s : UploadState) (env : UploadEnv) : List NetEvent :=
  (handleUploadFull s env).2.1

/-- Sequence of writes to the busy indicator during one `handleUpload`
run. -/
def busyWrites (s : UploadState) (env : UploadEnv) : List Bool :=
  (handleUploadFull s env).2.2

/-- Outcome of the download `fetch` (and the subsequent blob staging):
full success, a non-ok response, or a thrown error. -/
inductive DownloadOutcome where
  | ok
  | httpError
  | netError
deriving DecidableEq, Repr

/-- `handleDownload` (FileUpload.tsx), instrumented with the network
calls issued.  Faithful to the source: `if (!result?.download_url)
return;`, then fetch the URL; a non-ok response or a thrown error sets
the fixed download-failure message; a successful fetch only performs
browser side effects (no state change — the error is notably not
cleared). -/
def handleDownloadFull (s : UploadState) (env : DownloadOutcome) :
    UploadState × List NetEvent :=
  match s.result with
  | none => (s, [])
  | some r =>
    if jsTruthy r.download_url then
      match env with
      | DownloadOutcome.ok => (s, [NetEvent.downloadGet (r.download_url.getD "")])
      | DownloadOutcome.httpError =>
          ({ s with error := some downloadFailMsg },
           [NetEvent.downloadGet (r.download_url.getD "")])
      | DownloadOutcome.netError =>
          ({ s with error := some downloadFailMsg },
           [NetEvent.downloadGet (r.download_url.getD "")])
    else (s, [])

/-- `handleDownload`: the state transformation alone. -/
def handleDownload (s : UploadState) (env : DownloadOutcome) : UploadState :=
  (handleDownloadFull s env).1

/-- Whether `handleDownload` would attempt a fetch from state `s`
(the `result?.download_url` truthiness guard). -/
def downloadArmed (s : UploadState) : Bool :=
  match s.result with
  | none => false
  | some r => jsTruthy r.download_url

/-- `handleReset` (FileUpload.tsx): clears `file`, `result`, `error`.
It performs no write to `uploading`. -/
def handleReset (s : UploadState) : UploadState :=
  { s with file := none, result := none, error := none }

/-- The standalone health probe (`useEffect` on mount, or a direct call
to `testBackendConnection`): it only logs, and never changes component
state. -/
def probeHealth (s : UploadState) (_h : HealthOutcome) : UploadState := s

/-- The orchestrator's phases, as named by the specification
(the source has no phase variable). -/
inductive Phase where
  | Idle
  | Uploading
  | Succeeded
  | Failed
deriving DecidableEq, Repr

/-- Modelled from the spec: the source keeps no `phase` field, so phase
membership is the spec's characterization read off the component state —
the busy indicator marks `Uploading`, a populated `errorMessage` marks
`Failed`, a populated `result` marks `Succeeded`, and `Idle` is the
state with none of these.  (Nothing in the code forces these to be
mutually exclusive; whether they are is exactly claim C2.) -/
def inPhase (s : UploadState) : Phase → Bool
  | Phase.Uploading => s.uploading
  | Phase.Failed => s.error.isSome
  | Phase.Succeeded => s.result.isSome
  | Phase.Idle => !s.uploading && s.error.isNone && s.result.isNone

/-- One user-driven operation together with the environment (network
outcomes) it runs against. -/
inductive Op where
  | select (f : FileData)
  | upload (env : UploadEnv)
  | download (env : DownloadOutcome)
  | reset
  | probe (h : HealthOutcome)
deriving Repr

/-- Apply one operation to the component state. -/
def applyOp (s : UploadState) : Op → UploadState
  | Op.select f => handleFileSelect s f
  | Op.upload env => handleUpload s env
  | Op.download env => handleDownload s env
  | Op.reset => handleReset s
  | Op.probe h => probeHealth s h

/-- Run a sequence of operations from the initial state. -/
def run (ops : List Op) : UploadState :=
  ops.foldl applyOp initState

/-! ## Concrete fixtures used by witnesses and counterexamples -/

/-- An example valid selection (`.xlsx` name). -/
def goodFile : FileData := { name := "report.xlsx", size := 2048 }

/-- An example invalid selection (non-`.xlsx` name). -/
def badFile : FileData := { name := "report.csv", size := 100 }

/-- The state with `goodFile` armed for upload. -/
def armedState : UploadState :=
  { file := some goodFile, uploading := false, result := none, error := none }

/-- The example success payload of the specification:
`{success:true, stats:{total_records:5, filename:"out.csv",
columns:["A","B"], preview:[{A:1,B:2}]}, download_url:"/files/out.csv"}`. -/
def exampleStats : Stats :=
  { total_records := 5
    filename := "out.csv"
    columns := ["A", "B"]
    preview := [[("A", JsonVal.num 1), ("B", JsonVal.num 2)]] }

/-- The example success payload of the specification, continued. -/
def examplePayload : ResponseBody :=
  { success := some true
    message := some "File processed successfully"
    stats := some exampleStats
    download_url := some "/files/out.csv"
    error := none }

/-- Environment: healthy probe, then a success response carrying
`examplePayload`. -/
def goodEnv : UploadEnv :=
  { health := HealthOutcome.response (some "healthy")
    fetch := FetchOutcome.response true 200 examplePayload }

/-- A state in which a previous successful result is displayed, with a
stale error alongside. -/
def displayedState : UploadState :=
  { file := some goodFile, uploading := false, result := some examplePayload,
    error := some "old error" }

/-- A mid-upload state: the busy indicator is on. -/
def uploadingState : UploadState :=
  { file := some goodFile, uploading := true, result := none, error := none }

/-- A state after a failed validation. -/
def failedState : UploadState :=
  { file := some goodFile, uploading := false, result := none,
    error := some validationMsg }

/-! ## Claims -/

/-- C1 counterexample: selecting a non-`.xlsx` file while a valid file
is armed does set the validation error, but `selectedFile` is NOT
cleared — the previously selected file remains armed, contradicting
the claimed `selectedFile = none`. -/
theorem c1_invalid_select_keeps_file :
    (handleFileSelect armedState badFile).file = some goodFile ∧
    ¬ (handleFileSelect armedState badFile).file = none ∧
    inPhase (handleFileSelect armedState badFile) Phase.Failed = true := by
  decide

/-- C1 (amended): for every candidate file whose name does not end in
`.xlsx`, `handleFileSelect` sets the fixed validation message and
leaves every other session field — `selectedFile` included —
unchanged; a previously selected valid file stays armed. -/
theorem c1_invalid_select (s : UploadState) (f : FileData)
    (h : jsEndsWith f.name ".xlsx" = false) :
    handleFileSelect s f = { s with error := some validationMsg } := by
  simp [handleFileSelect, h]

/-- C1 witness: the amended statement at a concrete invalid file over a
state with a valid file armed. -/
theorem c1_invalid_select_witness :
    jsEndsWith badFile.name ".xlsx" = false ∧
    handleFileSelect armedState badFile = { armedState with error := some validationMsg } :=
  ⟨by decide, c1_invalid_select armedState badFile (by decide)⟩

/-- C9: for every candidate file whose name ends in `.xlsx`,
`handleFileSelect` stores the candidate as the selected file and clears
any prior result and error message (the pre-upload presentation),
leaving the busy indicator untouched. -/
theorem c9_valid_select (s : UploadState) (f : FileData)
    (h : jsEndsWith f.name ".xlsx" = true) :
    handleFileSelect s f = { s with file := some f, result := none, error := none } := by
  simp [handleFileSelect, h]

/-- C9 witness: selecting a concrete `.xlsx` file while a previous
result (and a stale error) is displayed clears both and stores the
candidate. -/
theorem c9_valid_select_witness :
    jsEndsWith goodFile.name ".xlsx" = true ∧
    handleFileSelect displayedState goodFile
      = { displayedState with file := some goodFile, result := none, error := none } :=
  ⟨by decide, c9_valid_select displayedState goodFile (by decide)⟩

/-- C5 counterexample: from a mid-upload state (busy indicator on),
`handleReset` does not return to the initial session — it performs no
write to `uploading`, so the busy indicator stays on and the state is
not `Idle`. -/
theorem c5_reset_uploading_counterexample :
    inPhase uploadingState Phase.Uploading = true ∧
    ¬ handleReset uploadingState = initState ∧
    inPhase (handleReset uploadingState) Phase.Idle = false := by
  decide

/-- C5 (amended): `handleReset` always clears `selectedFile`, `result`
and `errorMessage` and never writes the busy indicator; from any state
whose busy indicator is off (every state outside a running upload) it
yields exactly the initial session `{Idle, none, none, none}`. -/
theorem c5_reset (s : UploadState) :
    (handleReset s).file = none ∧ (handleReset s).result = none ∧
    (handleReset s).error = none ∧ (handleReset s).uploading = s.uploading ∧
    (s.uploading = false →
      handleReset s = initState ∧ inPhase (handleReset s) Phase.Idle = true) := by
  cases s with
  | mk file uploading result error =>
    refine ⟨rfl, rfl, rfl, rfl, ?_⟩
    intro h
    subst h
    exact ⟨rfl, rfl⟩

/-- C5 witness: the amended statement at a concrete failed session. -/
theorem c5_reset_witness :
    failedState.uploading = false ∧
    (handleReset failedState = initState ∧
      inPhase (handleReset failedState) Phase.Idle = true) :=
  ⟨rfl, (c5_reset failedState).2.2.2.2 rfl⟩

/-- C10: whenever `result` is absent or its `download_url` is not a
non-empty string, `handleDownload` returns at the guard: it issues no
network call and leaves every session field unchanged. -/
theorem c10_download_guard (s : UploadState) (env : DownloadOutcome)
    (h : downloadArmed s = false) :
    handleDownloadFull s env = (s, []) := by
  cases hr : s.result with
  | none => simp [handleDownloadFull, hr]
  | some r =>
    simp only [downloadArmed, hr] at h
    simp [handleDownloadFull, hr, h]

/-- C10 witness: the guard at the initial state (no result). -/
theorem c10_download_guard_witness :
    downloadArmed initState = false ∧
    handleDownloadFull initState DownloadOutcome.ok = (initState, []) :=
  ⟨rfl, c10_download_guard initState DownloadOutcome.ok rfl⟩

/-- C4: the busy indicator starts false; every `handleUpload` run ends
with it false; on each run that passes the guards and attempts the
upload (any of the success, failure-response, or thrown paths) the
indicator is written `true` once and then cleared exactly once — the
write trace is exactly `[true, false]`; on the early-return paths (no
file, failed probe) it is never written at all, so it is true only
strictly inside an upload attempt. -/
theorem c4_busy_indicator (s : UploadState) (env : UploadEnv)
    (h : s.uploading = false) :
    (handleUpload s env).uploading = false ∧
    (s.file.isSome = true → testBackendConnection env.health = true →
      busyWrites s env = [true, false]) ∧
    (s.file.isSome = false → busyWrites s env = []) ∧
    (testBackendConnection env.health = false → busyWrites s env = []) := by
  cases hf : s.file with
  | none => simp [handleUpload, handleUploadFull, busyWrites, hf, h]
  | some f =>
    cases hh : testBackendConnection env.health with
    | false => simp [handleUpload, handleUploadFull, busyWrites, hf, hh, h]
    | true =>
      cases hfe : env.fetch with
      | netError m =>
          simp [handleUpload, handleUploadFull, busyWrites, hf, hh, hfe]
      | badJson status pm =>
          simp [handleUpload, handleUploadFull, busyWrites, hf, hh, hfe]
      | response ok status body =>
          cases ok <;>
            simp [handleUpload, handleUploadFull, busyWrites, hf, hh, hfe]

/-- C4 witness: a concrete armed state with a healthy probe and a
successful upload produces the write trace `[true, false]`. -/
theorem c4_busy_indicator_witness :
    armedState.uploading = false ∧ armedState.file.isSome = true ∧
    testBackendConnection goodEnv.health = true ∧
    busyWrites armedState goodEnv = [true, false] :=
  ⟨rfl, rfl, rfl, (c4_busy_indicator armedState goodEnv rfl).2.1 rfl rfl⟩

/-- C6: from a `Succeeded` session whose stored result carries a truthy
download reference, a failing artifact fetch (non-ok response or thrown
error) leaves `result` — and with it the `Succeeded` phase, the
selected file and the busy indicator — unchanged, while setting the
fixed download-failure error message. -/
theorem c6_download_failure (s : UploadState) (env : DownloadOutcome)
    (_hs : inPhase s Phase.Succeeded = true)
    (ha : downloadArmed s = true)
    (he : ¬ env = DownloadOutcome.ok) :
    (handleDownload s env).result = s.result ∧
    inPhase (handleDownload s env) Phase.Succeeded = true ∧
    (handleDownload s env).error = some downloadFailMsg ∧
    (handleDownload s env).file = s.file ∧
    (handleDownload s env).uploading = s.uploading := by
  cases hr : s.result with
  | none => simp [downloadArmed, hr] at ha
  | some r =>
    simp only [downloadArmed, hr] at ha
    cases env with
    | ok => exact absurd rfl he
    | httpError =>
        simp [handleDownload, handleDownloadFull, inPhase, hr, ha]
    | netError =>
        simp [handleDownload, handleDownloadFull, inPhase, hr, ha]

/-- The session reached by a successful upload from the armed state:
used as a concrete `Succeeded` state. -/
def succeededState : UploadState := handleUpload armedState goodEnv

/-- C6 witness: the statement at the concrete succeeded session and a
non-ok download response. -/
theorem c6_download_failure_witness :
    inPhase succeededState Phase.Succeeded = true ∧
    downloadArmed succeededState = true ∧
    ((handleDownload succeededState DownloadOutcome.httpError).result
        = succeededState.result ∧
      inPhase (handleDownload succeededState DownloadOutcome.httpError)
        Phase.Succeeded = true ∧
      (handleDownload succeededState DownloadOutcome.httpError).error
        = some downloadFailMsg ∧
      (handleDownload succeededState DownloadOutcome.httpError).file
        = succeededState.file ∧
      (handleDownload succeededState DownloadOutcome.httpError).uploading
        = succeededState.uploading) :=
  ⟨by decide, by decide,
    c6_download_failure succeededState DownloadOutcome.httpError
      (by decide) (by decide) (by decide)⟩

/-- C7: whenever a file is armed and the health probe's outcome is
anything other than a parsed body with `status === "healthy"` (another
status value, a missing field, a network failure, or a parse failure),
`handleUpload` sets exactly the connectivity error, lands in the
`Failed` phase, and its only network call is the health check — the
upload endpoint is never contacted.  Moreover, in every run of
`handleUpload`, an upload POST only ever occurs immediately after a
health check: the probe always precedes the upload attempt. -/
theorem c7_probe_gate (s : UploadState) (env : UploadEnv) :
    (s.file.isSome = true →
      ¬ env.health = HealthOutcome.response (some "healthy") →
      handleUpload s env = { s with error := some connectivityMsg } ∧
      inPhase (handleUpload s env) Phase.Failed = true ∧
      uploadEvents s env = [NetEvent.healthCheck] ∧
      ¬ NetEvent.uploadPost ∈ uploadEvents s env) ∧
    (NetEvent.uploadPost ∈ uploadEvents s env →
      uploadEvents s env = [NetEvent.healthCheck, NetEvent.uploadPost]) := by
  have hfalse : ∀ hlt : HealthOutcome,
      ¬ hlt = HealthOutcome.response (some "healthy") →
      testBackendConnection hlt = false := by
    intro hlt hne
    cases hlt with
    | response st =>
        simp only [testBackendConnection, beq_eq_false_iff_ne, ne_eq]
        intro hst
        exact hne (by rw [hst])
    | failure => rfl
  cases hf : s.file with
  | none =>
    constructor
    · intro h1
      simp [hf] at h1
    · intro hm
      simp [uploadEvents, handleUploadFull, hf] at hm
  | some f =>
    cases hh : testBackendConnection env.health with
    | false =>
      constructor
      · intro _ _
        refine ⟨?_, ?_, ?_, ?_⟩ <;>
          simp [handleUpload, uploadEvents, handleUploadFull, inPhase, hf, hh]
      · intro hm
        simp [uploadEvents, handleUploadFull, hf, hh] at hm
    | true =>
      constructor
      · intro _ hne
        rw [hfalse env.health hne] at hh
        exact absurd hh (by simp)
      · intro _
        cases hfe : env.fetch with
        | netError m =>
            simp [uploadEvents, handleUploadFull, hf, hh, hfe]
        | badJson status pm =>
            simp [uploadEvents, handleUploadFull, hf, hh, hfe]
        | response ok status body =>
            cases ok <;> simp [uploadEvents, handleUploadFull, hf, hh, hfe]

/-- C7 witness: the statement at the armed state with a degraded probe
(the specification's `{status:"degraded"}` example). -/
theorem c7_probe_gate_witness :
    armedState.file.isSome = true ∧
    ¬ (HealthOutcome.response (some "degraded"))
        = HealthOutcome.response (some "healthy") ∧
    (handleUpload armedState
        { health := HealthOutcome.response (some "degraded")
          fetch := FetchOutcome.netError none }
      = { armedState with error := some connectivityMsg } ∧
      inPhase (handleUpload armedState
        { health := HealthOutcome.response (some "degraded")
          fetch := FetchOutcome.netError none }) Phase.Failed = true ∧
      uploadEvents armedState
        { health := HealthOutcome.response (some "degraded")
          fetch := FetchOutcome.netError none } = [NetEvent.healthCheck] ∧
      ¬ NetEvent.uploadPost ∈ uploadEvents armedState
        { health := HealthOutcome.response (some "degraded")
          fetch := FetchOutcome.netError none }) :=
  ⟨rfl, by decide,
    (c7_probe_gate armedState
      { health := HealthOutcome.response (some "degraded")
        fetch := FetchOutcome.netError none }).1 rfl (by decide)⟩

/-- C8: with a file armed, a healthy probe and a success response whose
payload carries a non-empty download locator, `handleUpload` stores the
payload as the result with its statistics object preserved unchanged,
rewrites only `download_url` to the configured base location
concatenated with the returned path, clears the error, and lands in the
`Succeeded` phase. -/
theorem c8_upload_success (s : UploadState) (env : UploadEnv)
    (status : Nat) (body : ResponseBody) (path : String)
    (hf : s.file.isSome = true)
    (hh : testBackendConnection env.health = true)
    (hfe : env.fetch = FetchOutcome.response true status body)
    (hurl : body.download_url = some path) (hp : ¬ path = "") :
    (handleUpload s env).result
      = some { body with download_url := some (API_BASE_URL ++ path) } ∧
    Option.map (fun r => r.stats) (handleUpload s env).result = some body.stats ∧
    inPhase (handleUpload s env) Phase.Succeeded = true ∧
    (handleUpload s env).error = none := by
  have ht : jsTruthy body.download_url = true := by
    simp [jsTruthy, hurl, hp]
  rw [hurl] at ht
  cases hfo : s.file with
  | none => simp [hfo] at hf
  | some f =>
    simp [handleUpload, handleUploadFull, inPhase, hfo, hh, hfe, ht, hurl]

/-- C8 witness: the specification's example payload (five records,
columns A and B, locator `/files/out.csv`) stored with the qualified
download reference and `total_records` preserved as `5`. -/
theorem c8_upload_success_witness :
    ((handleUpload armedState goodEnv).result
      = some { examplePayload with
                 download_url := some (API_BASE_URL ++ "/files/out.csv") } ∧
     Option.map (fun r => r.stats) (handleUpload armedState goodEnv).result
      = some examplePayload.stats ∧
     inPhase (handleUpload armedState goodEnv) Phase.Succeeded = true ∧
     (handleUpload armedState goodEnv).error = none) ∧
    examplePayload.stats = some exampleStats ∧
    exampleStats.total_records = 5 :=
  ⟨c8_upload_success armedState goodEnv 200 examplePayload "/files/out.csv"
      rfl rfl rfl rfl (by decide), rfl, rfl⟩

/-! ## Frame lemmas for the reachability invariant -/

/-- `handleUpload` never changes the selected file. -/
theorem handleUpload_file (s : UploadState) (env : UploadEnv) :
    (handleUpload s env).file = s.file := by
  cases hf : s.file with
  | none => simp [handleUpload, handleUploadFull, hf]
  | some f =>
    cases hh : testBackendConnection env.health with
    | false => simp [handleUpload, handleUploadFull, hf, hh]
    | true =>
      cases hfe : env.fetch with
      | netError m => simp [handleUpload, handleUploadFull, hf, hh, hfe]
      | badJson status pm => simp [handleUpload, handleUploadFull, hf, hh, hfe]
      | response ok status body =>
          cases ok <;> simp [handleUpload, handleUploadFull, hf, hh, hfe]

/-- `handleUpload` always ends with the busy indicator off (given it
starts off: the early-return paths do not write it). -/
theorem handleUpload_uploading (s : UploadState) (env : UploadEnv)
    (h : s.uploading = false) : (handleUpload s env).uploading = false := by
  cases hf : s.file with
  | none => simp [handleUpload, handleUploadFull, hf, h]
  | some f =>
    cases hh : testBackendConnection env.health with
    | false => simp [handleUpload, handleUploadFull, hf, hh, h]
    | true =>
      cases hfe : env.fetch with
      | netError m => simp [handleUpload, handleUploadFull, hf, hh, hfe]
      | badJson status pm => simp [handleUpload, handleUploadFull, hf, hh, hfe]
      | response ok status body =>
          cases ok <;> simp [handleUpload, handleUploadFull, hf, hh, hfe]

/-- With no file selected, `handleUpload` only sets the missing-file
error. -/
theorem handleUpload_noFile (s : UploadState) (env : UploadEnv)
    (h : s.file = none) :
    handleUpload s env = { s with error := some noFileMsg } := by
  simp [handleUpload, handleUploadFull, h]

/-- `handleDownload` never changes the selected file, the stored result
or the busy indicator. -/
theorem handleDownload_frame (s : UploadState) (env : DownloadOutcome) :
    (handleDownload s env).file = s.file ∧
    (handleDownload s env).result = s.result ∧
    (handleDownload s env).uploading = s.uploading := by
  cases hr : s.result with
  | none => simp [handleDownload, handleDownloadFull, hr]
  | some r =>
    cases ht : jsTruthy r.download_url with
    | false => simp [handleDownload, handleDownloadFull, hr, ht]
    | true =>
      cases env <;> simp [handleDownload, handleDownloadFull, hr, ht]

/-- Invariant preservation: one operation keeps the busy indicator off
and keeps `result` implying an armed file. -/
theorem applyOp_inv (s : UploadState) (op : Op)
    (h1 : s.uploading = false)
    (h2 : (s.result.isSome && !s.file.isSome) = false) :
    (applyOp s op).uploading = false ∧
    ((applyOp s op).result.isSome && !(applyOp s op).file.isSome) = false := by
  cases op with
  | select f =>
    cases he : jsEndsWith f.name ".xlsx" with
    | true => simp [applyOp, handleFileSelect, he, h1]
    | false =>
      refine ⟨by simp [applyOp, handleFileSelect, he, h1], ?_⟩
      simpa [applyOp, handleFileSelect, he] using h2
  | upload env =>
    refine ⟨handleUpload_uploading s env h1, ?_⟩
    cases hf : s.file with
    | none =>
      rw [applyOp, handleUpload_noFile s env hf]
      simpa [hf] using h2
    | some f =>
      have := handleUpload_file s env
      rw [applyOp, this, hf]
      simp
  | download env =>
    have hfr := handleDownload_frame s env
    rw [applyOp, hfr.1, hfr.2.1, hfr.2.2]
    exact ⟨h1, h2⟩
  | reset => simp [applyOp, handleReset, h1]
  | probe h => exact ⟨h1, h2⟩

/-- Folding any operation list preserves the invariant. -/
theorem foldl_inv (ops : List Op) (s : UploadState)
    (h1 : s.uploading = false)
    (h2 : (s.result.isSome && !s.file.isSome) = false) :
    (ops.foldl applyOp s).uploading = false ∧
    ((ops.foldl applyOp s).result.isSome
        && !(ops.foldl applyOp s).file.isSome) = false := by
  induction ops generalizing s with
  | nil => exact ⟨h1, h2⟩
  | cons op rest ih =>
    have hstep := applyOp_inv s op h1 h2
    exact ih (applyOp s op) hstep.1 hstep.2

/-- C2 counterexample: a reachable session — valid selection, then a
successful upload, then a failed download — in which `result` and
`errorMessage` are simultaneously populated, so the claimed mutual
exclusion (and the exclusive phase reading) fails. -/
theorem c2_mutual_exclusion_counterexample :
    (run [Op.select goodFile, Op.upload goodEnv,
          Op.download DownloadOutcome.netError]).result.isSome = true ∧
    (run [Op.select goodFile, Op.upload goodEnv,
          Op.download DownloadOutcome.netError]).error.isSome = true ∧
    inPhase (run [Op.select goodFile, Op.upload goodEnv,
          Op.download DownloadOutcome.netError]) Phase.Succeeded = true ∧
    inPhase (run [Op.select goodFile, Op.upload goodEnv,
          Op.download DownloadOutcome.netError]) Phase.Failed = true := by
  decide

/-- C2 (amended): in every session state reachable by any sequence of
operations, the busy indicator is off and a stored result implies a
selected file, and the spec's per-phase readings hold (`errorMessage`
set exactly when the session displays `Failed`, `result` set exactly
when it displays `Succeeded`); the claimed mutual exclusion of `result`
and `errorMessage` does NOT hold — a failure following a success (such
as a failed download) retains the prior result while setting an error,
so a session can display both at once. -/
theorem c2_session_invariant (ops : List Op) :
    (run ops).uploading = false ∧
    ((run ops).result.isSome && !(run ops).file.isSome) = false ∧
    (run ops).error.isSome = inPhase (run ops) Phase.Failed ∧
    (run ops).result.isSome = inPhase (run ops) Phase.Succeeded := by
  have h := foldl_inv ops initState rfl rfl
  exact ⟨h.1, h.2, rfl, rfl⟩

/-- The status-derived fallback message is never the empty string. -/
theorem statusFallbackMsg_ne_empty (status : Nat) :
    ¬ statusFallbackMsg status = "" := by
  intro h
  have hd := congrArg String.data h
  rw [statusFallbackMsg, String.data_append] at hd
  simp only [List.append_eq_nil] at hd
  exact absurd hd.1 (by decide)

/-- Environment: healthy probe, then a 400 response whose body carries
`{error:"bad format"}`. -/
def badFormatEnv : UploadEnv :=
  { health := HealthOutcome.response (some "healthy")
    fetch := FetchOutcome.response false 400
      { success := none, message := none, stats := none,
        download_url := none, error := some "bad format" } }

/-- Environment: healthy probe, then a 500 response whose body is empty
and therefore fails to parse as JSON (`response.json()` throws a
SyntaxError whose message is the V8 text below). -/
def emptyBodyEnv : UploadEnv :=
  { health := HealthOutcome.response (some "healthy")
    fetch := FetchOutcome.badJson 500 "Unexpected end of JSON input" }

/-- C3 counterexample: for the 500 response with an empty body, the
stored error message is the JSON parse failure's message, not a message
derived from the status code: `response.json()` throws before the
status-based fallback chain is ever reached. -/
theorem c3_empty_body_counterexample :
    (handleUpload armedState emptyBodyEnv).error
      = some "Unexpected end of JSON input" ∧
    ¬ "Unexpected end of JSON input" = statusFallbackMsg 500 ∧
    inPhase (handleUpload armedState emptyBodyEnv) Phase.Failed = true := by
  decide

/-- C3 (amended): for a non-success upload response whose body parses
as JSON, the session fails with a message chosen by the three-level
fallback — a truthy `error` field, else a truthy `message` field, else
the (never empty) status-derived message; in particular status 400 with
body `{error:"bad format"}` yields `"bad format"`.  When the body does
not parse (e.g. status 500 with an empty body), the stored message is
the parse error's message instead, and the status code plays no role. -/
theorem c3_upload_error_fallback (s : UploadState) (env : UploadEnv)
    (hf : s.file.isSome = true)
    (hh : testBackendConnection env.health = true) :
    (∀ status body e, env.fetch = FetchOutcome.response false status body →
       body.error = some e → ¬ e = "" →
       (handleUpload s env).error = some e ∧
       inPhase (handleUpload s env) Phase.Failed = true) ∧
    (∀ status body m, env.fetch = FetchOutcome.response false status body →
       jsTruthy body.error = false → body.message = some m → ¬ m = "" →
       (handleUpload s env).error = some m) ∧
    (∀ status body, env.fetch = FetchOutcome.response false status body →
       jsTruthy body.error = false → jsTruthy body.message = false →
       (handleUpload s env).error = some (statusFallbackMsg status) ∧
       ¬ statusFallbackMsg status = "") ∧
    (∀ status pm, env.fetch = FetchOutcome.badJson status pm →
       (handleUpload s env).error = some pm ∧
       inPhase (handleUpload s env) Phase.Failed = true) := by
  cases hfo : s.file with
  | none => simp [hfo] at hf
  | some f =>
    refine ⟨?_, ?_, ?_, ?_⟩
    · intro status body e hfe he hne
      have ht : jsTruthy body.error = true := by simp [jsTruthy, he, hne]
      rw [he] at ht
      simp [handleUpload, handleUploadFull, inPhase, hfo, hh, hfe, ht, he]
    · intro status body m hfe hte htm hne
      have ht : jsTruthy body.message = true := by simp [jsTruthy, htm, hne]
      rw [htm] at ht
      simp [handleUpload, handleUploadFull, inPhase, hfo, hh, hfe, hte, ht, htm]
    · intro status body hfe hte htm
      refine ⟨?_, statusFallbackMsg_ne_empty status⟩
      simp [handleUpload, handleUploadFull, hfo, hh, hfe, hte, htm]
    · intro status pm hfe
      simp [handleUpload, handleUploadFull, inPhase, hfo, hh, hfe]

/-- C3 witness: the amended statement at the armed state and the 400 /
`{error:"bad format"}` environment yields exactly `"bad format"`. -/
theorem c3_upload_error_fallback_witness :
    armedState.file.isSome = true ∧
    testBackendConnection badFormatEnv.health = true ∧
    ((handleUpload armedState badFormatEnv).error = some "bad format" ∧
     inPhase (handleUpload armedState badFormatEnv) Phase.Failed = true) :=
  ⟨rfl, rfl,
    (c3_upload_error_fallback armedState badFormatEnv rfl rfl).1 400
      { success := none, message := none, stats := none,
        download_url := none, error := some "bad format" }
      "bad format" rfl rfl (by decide)⟩

end Project2Frontend
